import Mathlib

/-!
Verification of `src/main.py` (a Discord auto-message bot script).

The script is shallowly embedded: JSON documents become the inductive type
`JSON`, Python truthiness, `dict.get(...) or default`, `str()`, `strip()`,
`lower()`, `startswith()` and `int()` become executable Lean functions, and
fallible Python code (statements that can raise) is modelled with
`Except String`.  Network, clock and randomness effects are passed in
explicitly as data (`HttpResult`, `DateTime`, a choice index), so every
function of the embedding is a pure, executable Lean definition.
-/

namespace DiscordBot

/-- A parsed JSON document, as produced by Python `json.load`.  Object fields
model a Python dict after parsing, so keys are assumed unique and lookup
returns the binding of the key. -/
inductive JSON where
  | null
  | bool (b : Bool)
  | num (n : Int)
  | str (s : String)
  | arr (xs : List JSON)
  | obj (fields : List (String × JSON))

/-- Python truthiness of a JSON value: `None`, `False`, `0`, `""`, `[]` and
`{}` are falsy, everything else is truthy. -/
def pyTruthy : JSON → Bool
  | JSON.null => false
  | JSON.bool b => b
  | JSON.num n => n != 0
  | JSON.str s => s != ""
  | JSON.arr xs => !xs.isEmpty
  | JSON.obj fs => !fs.isEmpty

/-- Dict lookup (`d.get(k)`), returning `none` when the key is absent. -/
def jlookup (fields : List (String × JSON)) (k : String) : Option JSON :=
  match fields with
  | [] => none
  | (k2, v) :: rest => if k2 = k then some v else jlookup rest k

/-- Python `d.get(k) or default`: the default is used when the key is absent
or its value is falsy. -/
def pyGetOr (fields : List (String × JSON)) (k : String) (d : JSON) : JSON :=
  match jlookup fields k with
  | some v => if pyTruthy v then v else d
  | none => d

mutual
/-- Python `repr` of a JSON value (used by `str()` on non-strings). -/
def pyRepr : JSON → String
  | JSON.null => "None"
  | JSON.bool true => "True"
  | JSON.bool false => "False"
  | JSON.num n => toString n
  | JSON.str s => "\x27" ++ s ++ "\x27"
  | JSON.arr xs => "[" ++ pyReprList xs ++ "]"
  | JSON.obj fs => "\x7b" ++ pyReprFields fs ++ "\x7d"

/-- Comma-separated reprs of the elements of a list. -/
def pyReprList : List JSON → String
  | [] => ""
  | [x] => pyRepr x
  | x :: xs => pyRepr x ++ ", " ++ pyReprList xs

/-- Comma-separated reprs of the fields of an object. -/
def pyReprFields : List (String × JSON) → String
  | [] => ""
  | [(k, v)] => "\x27" ++ k ++ "\x27: " ++ pyRepr v
  | (k, v) :: fs => "\x27" ++ k ++ "\x27: " ++ pyRepr v ++ ", " ++ pyReprFields fs
end

/-- Python `str()` of a JSON value. -/
def pyStr : JSON → String
  | JSON.str s => s
  | v => pyRepr v

/-- Python `s.strip()`: remove leading and trailing whitespace. -/
def pyStrip (s : String) : String :=
  String.mk (((s.data.dropWhile Char.isWhitespace).reverse.dropWhile Char.isWhitespace).reverse)

/-- Python `s.lower()` (ASCII letters, which covers the "Bot " check). -/
def pyLower (s : String) : String :=
  String.mk (s.data.map Char.toLower)

/-- Character-list test that `p` is an initial segment of `s`. -/
def pfxOf : List Char → List Char → Bool
  | [], _ => true
  | _ :: _, [] => false
  | a :: as, b :: bs => (a == b) && pfxOf as bs

/-- Python `s.startswith(p)`. -/
def pyStartsWith (s p : String) : Bool :=
  pfxOf p.data s.data

/-- All characters are decimal digits. -/
def allDigits (cs : List Char) : Bool := cs.all Char.isDigit

/-- Numeric value of a list of decimal digit characters. -/
def digitsVal (cs : List Char) : Nat :=
  cs.foldl (fun a c => a * 10 + (c.toNat - 48)) 0

/-- Python `int(s)` on a string: optional sign, decimal digits, surrounding
whitespace allowed; `none` models the `ValueError` raised otherwise. -/
def strToInt (s : String) : Option Int :=
  match (pyStrip s).data with
  | [] => none
  | '+' :: rest => if rest ≠ [] ∧ allDigits rest then some (Int.ofNat (digitsVal rest)) else none
  | '-' :: rest => if rest ≠ [] ∧ allDigits rest then some (-(Int.ofNat (digitsVal rest))) else none
  | cs => if allDigits cs then some (Int.ofNat (digitsVal cs)) else none

/-- Python `int(v)` on a JSON value: numbers pass through, booleans become
0/1, numeric strings are parsed, everything else raises. -/
def pyInt : JSON → Except String Int
  | JSON.num n => Except.ok n
  | JSON.bool b => Except.ok (if b then 1 else 0)
  | JSON.str s =>
    match strToInt s with
    | some n => Except.ok n
    | none => Except.error "ValueError: invalid literal for int with base 10"
  | JSON.null => Except.error "TypeError: int argument must not be NoneType"
  | JSON.arr _ => Except.error "TypeError: int argument cannot be a list"
  | JSON.obj _ => Except.error "TypeError: int argument cannot be a dict"

/-- The configuration tuple returned by `load_config` in `src/main.py`
(line 67): `(channel_id, token, messages, interval)`. -/
structure Config where
  channel_id : String
  token : String
  messages : List JSON
  interval : Int

/-- Lines 47 of `src/main.py`: `cfg = (data.get('Config') or [{}])[0]`,
followed by the implicit requirement (lines 48 onward) that `cfg` is a dict
with a `get` method.  Errors model the exceptions Python would raise. -/
def configFields (data : JSON) : Except String (List (String × JSON)) :=
  match data with
  | JSON.obj fields =>
    match pyGetOr fields "Config" (JSON.arr [JSON.obj []]) with
    | JSON.arr (c :: _) =>
      match c with
      | JSON.obj fs => Except.ok fs
      | _ => Except.error "AttributeError: object has no attribute get"
    | JSON.arr [] => Except.error "IndexError: list index out of range"
    | _ => Except.error "TypeError: object is not subscriptable"
  | _ => Except.error "AttributeError: object has no attribute get"

/-- Line 48: `token = (cfg.get('token') or '').strip()`.  A truthy
non-string value has no `strip` method, which Python reports as an
`AttributeError`. -/
def rawTokenOf (fs : List (String × JSON)) : Except String String :=
  match pyGetOr fs "token" (JSON.str "") with
  | JSON.str s => Except.ok (pyStrip s)
  | _ => Except.error "AttributeError: object has no attribute strip"

/-- Line 49: `channel_id = str(cfg.get('channelid') or '').strip()`. -/
def channelOf (fs : List (String × JSON)) : String :=
  pyStrip (pyStr (pyGetOr fs "channelid" (JSON.str "")))

/-- The test on line 53: the `messages` field when it is a (truthy,
hence non-empty) list, and `none` otherwise. -/
def msgsListField (fs : List (String × JSON)) : Option (List JSON) :=
  match jlookup fs "messages" with
  | some (JSON.arr (x :: xs)) => some (x :: xs)
  | _ => none

/-- Lines 52-55: either the non-empty `messages` list verbatim, or the
single-element list holding `cfg.get('message') or "Hello from VPS!"`. -/
def messagesOf (fs : List (String × JSON)) : List JSON :=
  match msgsListField fs with
  | some l => l
  | none => [pyGetOr fs "message" (JSON.str "Hello from VPS!")]

/-- Line 57: `interval = int(cfg.get('interval_seconds') or 3600)`. -/
def intervalOf (fs : List (String × JSON)) : Except String Int :=
  pyInt (pyGetOr fs "interval_seconds" (JSON.num 3600))

/-- Lines 59-62: prepend `"Bot "` when the token is non-empty and does not
already start (case-insensitively) with it. -/
def processedToken (raw : String) : String :=
  if raw ≠ "" ∧ pyStartsWith (pyLower raw) "bot " = false then "Bot " ++ raw else raw

/-- Lines 43-67 of `src/main.py`: `load_config`, with the file read and
`json.load` abstracted into the `data : JSON` argument.  Evaluation order of
the fallible steps follows the source: config record (line 47), token strip
(line 48), `int(...)` (line 57), final validation (lines 64-65). -/
def load_config (data : JSON) : Except String Config :=
  match configFields data with
  | Except.error e => Except.error e
  | Except.ok fs =>
    match rawTokenOf fs with
    | Except.error e => Except.error e
    | Except.ok rawTok =>
      match intervalOf fs with
      | Except.error e => Except.error e
      | Except.ok interval =>
        if processedToken rawTok = "" ∨ channelOf fs = "" then
          Except.error "Config missing required fields: \x27token\x27 and \x27channelid\x27."
        else
          Except.ok
            { channel_id := channelOf fs, token := processedToken rawTok,
              messages := messagesOf fs, interval := interval }

/-- A local clock reading, as produced by `datetime.now()`. -/
structure DateTime where
  year : Nat
  month : Nat
  day : Nat
  hour : Nat
  minute : Nat
  second : Nat

/-- The decimal digit character for `d < 10` (with a catch-all so the
function is total). -/
def decChar (d : Nat) : Char :=
  match d with
  | 0 => '0' | 1 => '1' | 2 => '2' | 3 => '3' | 4 => '4'
  | 5 => '5' | 6 => '6' | 7 => '7' | 8 => '8' | _ => '9'

/-- Decimal digit characters of a natural number, most significant first. -/
def natChars (n : Nat) : List Char :=
  if n < 10 then [decChar n] else natChars (n / 10) ++ [decChar (n % 10)]
termination_by n
decreasing_by omega

/-- Zero-padded two-digit field of `strftime` (`%m`, `%d`, `%H`, `%M`, `%S`). -/
def pad2 (n : Nat) : List Char :=
  if n < 10 then '0' :: natChars n else natChars n

/-- Zero-padded four-digit year field of `strftime` (`%Y`). -/
def pad4 (n : Nat) : List Char :=
  List.replicate (4 - (natChars n).length) '0' ++ natChars n

/-- Line 82: `datetime.now().strftime("%Y-%m-%d %H:%M:%S")` as characters. -/
def nowChars (t : DateTime) : List Char :=
  pad4 t.year ++ '-' :: pad2 t.month ++ '-' :: pad2 t.day ++
    ' ' :: pad2 t.hour ++ ':' :: pad2 t.minute ++ ':' :: pad2 t.second

/-- The characters of the `"\x7bnow\x7d"` placeholder. -/
def nowPat : List Char := "{now}".data

/-- Python `s.replace(pat, rep)`: scan left to right, replacing each
non-overlapping occurrence of `pat` (the callers only use a non-empty
`pat`, so the empty-pattern case keeps the string unchanged). -/
def replaceAll (pat rep : List Char) (s : List Char) : List Char :=
  match s with
  | [] => []
  | c :: cs =>
    if pat ≠ [] ∧ pfxOf pat (c :: cs) = true then
      rep ++ replaceAll pat rep ((c :: cs).drop pat.length)
    else
      c :: replaceAll pat rep cs
termination_by s.length
decreasing_by
  · simp only [List.length_drop, List.length_cons]
    have hp : pat.length ≠ 0 := fun h0 => (by tauto : pat ≠ []) (List.eq_nil_of_length_eq_zero h0)
    omega
  · simp

/-- Whether `pat` occurs as a contiguous substring of `s`. -/
def containsPat (pat : List Char) (s : List Char) : Bool :=
  match s with
  | [] => pat.isEmpty
  | c :: cs => pfxOf pat (c :: cs) || containsPat pat cs

/-- Lines 81-83 of `src/main.py`: `render_message`, with the clock reading
passed explicitly. -/
def render_message (t : DateTime) (template : String) : String :=
  String.mk (replaceAll nowPat (nowChars t) template.data)

/-- Lines 70-75: `get_headers`. -/
def get_headers (token : String) : List (String × String) :=
  [("Content-Type", "application/json"),
   ("User-Agent", "DiscordBot"),
   ("Authorization", token)]

/-- The single HTTP request a call of `send_message` issues. -/
structure HttpRequest where
  method : String
  host : String
  port : Nat
  useTls : Bool
  timeoutSeconds : Nat
  path : String
  headers : List (String × String)
  body : JSON

/-- Lines 77-78: `get_connection` returns an HTTPS connection to
`discord.com:443` with a 30 second timeout; modelled as that data. -/
def get_connection : String × Nat × Nat := ("discord.com", 443, 30)

/-- Lines 86-91: the request `send_message` issues — one POST to
`/api/v10/channels/<channel_id>/messages` over the `get_connection`
transport, with `get_headers` and the JSON body
`\x7b"content": content, "tts": false\x7d`. -/
def build_request (channel_id token content : String) : HttpRequest :=
  { method := "POST",
    host := get_connection.1,
    port := get_connection.2.1,
    useTls := true,
    timeoutSeconds := get_connection.2.2,
    path := "/api/v10/channels/" ++ channel_id ++ "/messages",
    headers := get_headers token,
    body := JSON.obj [("content", JSON.str content), ("tts", JSON.bool false)] }

/-- What the network does on one attempt: either a response arrives
(status, reason phrase, body bytes), or some exception is raised during
connect/send/read. -/
inductive HttpResult where
  | response (status : Nat) (reason : String) (body : List Nat)
  | exception (e : String)

/-- One structured log line. -/
inductive LogEntry where
  | info (msg : String)
  | warning (msg : String)
  | httpError (status : Nat) (reason : String) (snippet : String)
  | excLog (msg : String)

/-- Whether a byte is a UTF-8 continuation byte. -/
def contByte (b : Nat) : Bool := 0x80 ≤ b && b ≤ 0xBF

/-- Valid second byte of a three-byte UTF-8 sequence with lead byte `b`. -/
def sndOk3 (b b2 : Nat) : Bool :=
  if b = 0xE0 then 0xA0 ≤ b2 && b2 ≤ 0xBF
  else if b = 0xED then 0x80 ≤ b2 && b2 ≤ 0x9F
  else contByte b2

/-- Valid second byte of a four-byte UTF-8 sequence with lead byte `b`. -/
def sndOk4 (b b2 : Nat) : Bool :=
  if b = 0xF0 then 0x90 ≤ b2 && b2 ≤ 0xBF
  else if b = 0xF4 then 0x80 ≤ b2 && b2 ≤ 0x8F
  else contByte b2

/-- Python `bytes.decode(errors="ignore")`: decode UTF-8, skipping the
bytes of any invalid or truncated sequence and resuming at the next byte
that was not consumed as part of it. -/
def decodeIgnore : List Nat → List Char
  | [] => []
  | b :: bs =>
    if b < 0x80 then Char.ofNat b :: decodeIgnore bs
    else if 0xC2 ≤ b && b ≤ 0xDF then
      match hbs : bs with
      | [] => []
      | b2 :: bs2 =>
        if contByte b2 then
          Char.ofNat ((b - 0xC0) * 64 + (b2 - 0x80)) :: decodeIgnore bs2
        else decodeIgnore bs
    else if 0xE0 ≤ b && b ≤ 0xEF then
      match hbs : bs with
      | [] => []
      | b2 :: bs2 =>
        if sndOk3 b b2 then
          match hbs2 : bs2 with
          | [] => []
          | b3 :: bs3 =>
            if contByte b3 then
              Char.ofNat ((b - 0xE0) * 4096 + (b2 - 0x80) * 64 + (b3 - 0x80)) :: decodeIgnore bs3
            else decodeIgnore bs2
        else decodeIgnore bs
    else if 0xF0 ≤ b && b ≤ 0xF4 then
      match hbs : bs with
      | [] => []
      | b2 :: bs2 =>
        if sndOk4 b b2 then
          match hbs2 : bs2 with
          | [] => []
          | b3 :: bs3 =>
            if contByte b3 then
              match hbs3 : bs3 with
              | [] => []
              | b4 :: bs4 =>
                if contByte b4 then
                  Char.ofNat ((b - 0xF0) * 262144 + (b2 - 0x80) * 4096 + (b3 - 0x80) * 64 + (b4 - 0x80)) :: decodeIgnore bs4
                else decodeIgnore bs3
            else decodeIgnore bs2
        else decodeIgnore bs
    else decodeIgnore bs
termination_by l => l.length
decreasing_by all_goals (subst_vars; simp only [List.length_cons]; omega)

/-- Line 97: `(resp_body[:300] if resp_body else b'').decode(errors="ignore")`. -/
def snippetOf (body : List Nat) : String :=
  String.mk (decodeIgnore (body.take 300))

/-- Lines 91-98 of `src/main.py`: the body of the `try` block in
`send_message` — issue the request, read the response and classify it.
`Except.error` models an exception escaping the `try` block. -/
def send_body : HttpResult → Except String (List LogEntry)
  | HttpResult.exception e => Except.error e
  | HttpResult.response status reason body =>
    Except.ok
      (if 199 < status ∧ status < 300 then
        [LogEntry.info "Message sent successfully."]
      else
        [LogEntry.httpError status reason (snippetOf body)])

/-- Lines 86-105 of `src/main.py`: `send_message`.  It returns the single
request it issued together with the log lines it wrote; the
`except Exception` handler (lines 99-100) turns any exception of the try
block into an `excLog` line instead of propagating it. -/
def send_message (channel_id token content : String) (net : HttpResult) :
    HttpRequest × List LogEntry :=
  (build_request channel_id token content,
    match send_body net with
    | Except.ok logs => logs
    | Except.error e => [LogEntry.excLog ("Exception while sending message: " ++ e)])

/-- The per-tick inputs of the loop: the random choice, the clock reading
and the network behaviour of this tick. -/
structure TickEnv where
  choiceIdx : Nat
  clock : DateTime
  net : HttpResult

/-- Lines 114-117 of `src/main.py`: the body of the `try` block of one loop
iteration — choose a template, render it, send it.  `Except.error` models an
exception: `random.choice` on an empty list raises `IndexError`, and
`.replace` on a non-string template raises `AttributeError`. -/
def tick_body (cfg : Config) (env : TickEnv) : Except String (List LogEntry) :=
  match cfg.messages with
  | [] => Except.error "IndexError: cannot choose from an empty sequence"
  | m :: ms =>
    match (m :: ms).get ⟨env.choiceIdx % (ms.length + 1), Nat.mod_lt _ (Nat.succ_pos ms.length)⟩ with
    | JSON.str s =>
      Except.ok (send_message cfg.channel_id cfg.token (render_message env.clock s) env.net).2
    | _ => Except.error "AttributeError: object has no attribute replace"

/-- Lines 113-120 of `src/main.py`: one full loop iteration.  The
`except Exception` handler (lines 118-119) turns any tick exception into an
`excLog` line and the loop carries on. -/
def loop_tick (cfg : Config) (env : TickEnv) : List LogEntry :=
  match tick_body cfg env with
  | Except.ok logs => logs
  | Except.error e => [LogEntry.excLog ("Error in loop: " ++ e)]

/-- A finite prefix of the infinite `while True` loop: run one tick per
environment, concatenating the logs. -/
def run_ticks (cfg : Config) : List TickEnv → List LogEntry
  | [] => []
  | env :: rest => loop_tick cfg env ++ run_ticks cfg rest

/-- Lines 108-120 of `src/main.py`: `main` — load the configuration, log the
startup summary, then loop.  A configuration failure propagates out before
any tick runs. -/
def main_run (data : JSON) (envs : List TickEnv) : Except String (List LogEntry) :=
  match load_config data with
  | Except.error e => Except.error e
  | Except.ok cfg =>
    Except.ok
      (LogEntry.info ("Bot started | channel=" ++ cfg.channel_id ++ " | interval=" ++
        toString cfg.interval ++ "s | messages=" ++ toString cfg.messages.length) ::
        run_ticks cfg envs)

/-! ### Helper lemmas about the configuration loader -/

/-- Inversion: a successful `load_config` run pins down every component of
the returned configuration in terms of the intermediate steps. -/
theorem load_config_ok_inv {data : JSON} {c : Config} (h : load_config data = Except.ok c) :
    ∃ fs raw i, configFields data = Except.ok fs ∧ rawTokenOf fs = Except.ok raw ∧
      intervalOf fs = Except.ok i ∧ processedToken raw ≠ "" ∧ channelOf fs ≠ "" ∧
      c = ⟨channelOf fs, processedToken raw, messagesOf fs, i⟩ := by
  unfold load_config at h
  split at h
  · simp at h
  rename_i fs hf
  split at h
  · simp at h
  rename_i raw ht
  split at h
  · simp at h
  rename_i i hi
  split at h
  · simp at h
  rename_i hcond
  push_neg at hcond
  exact ⟨fs, raw, i, hf, ht, hi, hcond.1, hcond.2, (Except.ok.inj h).symm⟩

/-- The empty token is left unchanged by the prefixing step. -/
theorem processedToken_empty : processedToken "" = "" := by
  simp [processedToken]

/-- A pattern is an initial segment of itself followed by anything. -/
theorem pfx_append_self (p l : List Char) : pfxOf p (p ++ l) = true := by
  induction p with
  | nil => rfl
  | cons a as ih => simp [pfxOf, ih]

/-- Lowercasing a token that starts with `"Bot "` yields a string that
starts with `"bot "`. -/
theorem bot_startsWith (raw : String) :
    pyStartsWith (pyLower ("Bot " ++ raw)) "bot " = true := by
  unfold pyStartsWith pyLower
  rw [String.data_append, List.map_append]
  have hmap : "Bot ".data.map Char.toLower = "bot ".data := by decide
  rw [hmap]
  exact pfx_append_self _ _

/-- If the stripped token is blank or the stripped channel id is blank,
`load_config` cannot return. -/
theorem load_config_blank {data : JSON} {fs : List (String × JSON)}
    (hf : configFields data = Except.ok fs)
    (hb : rawTokenOf fs = Except.ok "" ∨ channelOf fs = "") :
    ∀ cf : Config, load_config data ≠ Except.ok cf := by
  intro cf h
  obtain ⟨fs2, raw2, i, hf2, ht2, _, hp, hc, _⟩ := load_config_ok_inv h
  rw [hf] at hf2
  injection hf2 with hfs
  subst hfs
  rcases hb with hb | hb
  · rw [hb] at ht2
    injection ht2 with hraw
    rw [← hraw] at hp
    exact hp processedToken_empty
  · exact hc hb

/-- C1: for every configuration accepted by `load_config`, the returned
credential is a non-empty string that begins (case-insensitively, matching
the check the source performs) with `"Bot "`; a token already carrying the
prefix in any letter case is returned as-is, while a non-empty token lacking
it gets `"Bot "` prepended. -/
theorem claim_C1 (data : JSON) (fs : List (String × JSON)) (raw : String) (c : Config)
    (hf : configFields data = Except.ok fs) (ht : rawTokenOf fs = Except.ok raw)
    (h : load_config data = Except.ok c) :
    (c.token ≠ "" ∧ pyStartsWith (pyLower c.token) "bot " = true) ∧
    (pyStartsWith (pyLower raw) "bot " = true → c.token = raw) ∧
    (raw ≠ "" → pyStartsWith (pyLower raw) "bot " = false → c.token = "Bot " ++ raw) := by
  obtain ⟨fs2, raw2, i, hf2, ht2, _, hp, _, hceq⟩ := load_config_ok_inv h
  rw [hf] at hf2
  injection hf2 with hfs
  subst hfs
  rw [ht] at ht2
  injection ht2 with hraw
  subst hraw
  have htok : c.token = processedToken raw := by rw [hceq]
  by_cases hb : pyStartsWith (pyLower raw) "bot " = true
  · have he : processedToken raw = raw := by simp [processedToken, hb]
    refine ⟨⟨?_, ?_⟩, fun _ => htok.trans he, fun _ hbf => ?_⟩
    · rw [htok]; exact hp
    · rw [htok, he]; exact hb
    · rw [hb] at hbf; cases hbf
  · have hbf : pyStartsWith (pyLower raw) "bot " = false := by
      cases hx : pyStartsWith (pyLower raw) "bot "
      · rfl
      · exact absurd hx hb
    have hraw_ne : raw ≠ "" := by
      intro h0
      subst h0
      exact hp processedToken_empty
    have he : processedToken raw = "Bot " ++ raw := by
      unfold processedToken
      rw [if_pos ⟨hraw_ne, hbf⟩]
    refine ⟨⟨?_, ?_⟩, fun hbt => absurd hbt hb, fun _ _ => htok.trans he⟩
    · rw [htok]; exact hp
    · rw [htok, he]
      exact bot_startsWith raw

/-- Concrete input for the C1 witness: a config whose token lacks the
prefix. -/
def c1fields : List (String × JSON) := [("token", JSON.str "abc"), ("channelid", JSON.str "9")]

/-- The config document wrapping `c1fields`. -/
def c1data : JSON := JSON.obj [("Config", JSON.arr [JSON.obj c1fields])]

/-- The configuration `load_config` returns on `c1data`. -/
def c1cfg : Config :=
  { channel_id := "9", token := "Bot abc", messages := [JSON.str "Hello from VPS!"], interval := 3600 }

/-- Witness for C1 at a concrete config: the token `"abc"` is accepted and
returned as `"Bot abc"`, which carries the prefix. -/
theorem claim_C1_witness :
    load_config c1data = Except.ok c1cfg ∧
    (c1cfg.token ≠ "" ∧ pyStartsWith (pyLower c1cfg.token) "bot " = true) :=
  ⟨rfl, (claim_C1 c1data c1fields "abc" c1cfg rfl rfl rfl).1⟩

/-- C2: whenever the token or the channelid is missing or blank after
stripping (so the stripped token, and hence the processed credential, or the
target id is empty), `load_config` does not return — it fails — and `main`
therefore fails before any loop tick runs. -/
theorem claim_C2 (data : JSON) (fs : List (String × JSON))
    (hf : configFields data = Except.ok fs)
    (hb : rawTokenOf fs = Except.ok "" ∨ channelOf fs = "") :
    (∀ cf : Config, load_config data ≠ Except.ok cf) ∧
    (∀ envs : List TickEnv, ∃ e, main_run data envs = Except.error e) := by
  refine ⟨load_config_blank hf hb, fun envs => ?_⟩
  rcases hl : load_config data with e | cf
  · exact ⟨e, by rw [main_run, hl]⟩
  · exact absurd hl (load_config_blank hf hb cf)

/-- Concrete input for the C2 witness: a config with no `token` field. -/
def c2fields : List (String × JSON) := [("channelid", JSON.str "9")]

/-- The config document wrapping `c2fields`. -/
def c2data : JSON := JSON.obj [("Config", JSON.arr [JSON.obj c2fields])]

/-- Witness for C2: on a config missing the token, the stripped token is
empty and `load_config` does not return the default configuration (nor any
other, by `claim_C2`). -/
theorem claim_C2_witness :
    rawTokenOf c2fields = Except.ok "" ∧
    load_config c2data ≠ Except.ok ⟨"9", "", [JSON.str "Hello from VPS!"], 3600⟩ :=
  ⟨rfl, (claim_C2 c2data c2fields rfl (Or.inl rfl)).1 _⟩

/-- C9: a `channelid` field that is present but falsy (`0`, `false` or the
empty string) yields exactly the same lookup result as a missing field — the
empty-string default — so the target id strips to empty and `load_config`
fails, even though a value was supplied. -/
theorem claim_C9 (data : JSON) (fs : List (String × JSON))
    (hf : configFields data = Except.ok fs)
    (hv : jlookup fs "channelid" = some (JSON.num 0) ∨
          jlookup fs "channelid" = some (JSON.bool false) ∨
          jlookup fs "channelid" = some (JSON.str "")) :
    pyGetOr fs "channelid" (JSON.str "") = JSON.str "" ∧
    channelOf fs = "" ∧
    ∀ cf : Config, load_config data ≠ Except.ok cf := by
  have hget : pyGetOr fs "channelid" (JSON.str "") = JSON.str "" := by
    rcases hv with hv | hv | hv <;> simp [pyGetOr, hv, pyTruthy]
  have hch : channelOf fs = "" := by
    rw [channelOf, hget]
    rfl
  exact ⟨hget, hch, load_config_blank hf (Or.inr hch)⟩

/-- Concrete input for the C9 witness: `channelid` supplied as the number 0. -/
def c9fields : List (String × JSON) := [("token", JSON.str "x"), ("channelid", JSON.num 0)]

/-- The config document wrapping `c9fields`. -/
def c9data : JSON := JSON.obj [("Config", JSON.arr [JSON.obj c9fields])]

/-- Witness for C9: with `channelid = 0` the lookup-with-default yields the
same empty string as a missing field and `load_config` rejects the config. -/
theorem claim_C9_witness :
    jlookup c9fields "channelid" = some (JSON.num 0) ∧
    pyGetOr c9fields "channelid" (JSON.str "") = JSON.str "" ∧
    load_config c9data ≠ Except.ok ⟨"", "Bot x", [JSON.str "Hello from VPS!"], 3600⟩ := by
  have h := claim_C9 c9data c9fields rfl (Or.inl rfl)
  exact ⟨rfl, h.1, h.2.2 _⟩

/-- Concrete input refuting C6: a valid config whose `interval_seconds` is
the number `-5`. -/
def c6fieldsA : List (String × JSON) :=
  [("token", JSON.str "x"), ("channelid", JSON.str "1"), ("interval_seconds", JSON.num (-5))]

/-- The config document wrapping `c6fieldsA`. -/
def c6dataA : JSON := JSON.obj [("Config", JSON.arr [JSON.obj c6fieldsA])]

/-- Concrete input refuting C6: a valid config whose `interval_seconds` is
the non-numeric string `"soon"`. -/
def c6fieldsB : List (String × JSON) :=
  [("token", JSON.str "x"), ("channelid", JSON.str "1"), ("interval_seconds", JSON.str "soon")]

/-- The config document wrapping `c6fieldsB`. -/
def c6dataB : JSON := JSON.obj [("Config", JSON.arr [JSON.obj c6fieldsB])]

/-- Counterexample to C6 as stated: with `interval_seconds = -5` the loader
returns interval `-5`, which is not positive; and with the truthy
non-numeric value `"soon"` the loader fails (`int` raises) instead of
defaulting to 3600. -/
theorem claim_C6_counterexample :
    (load_config c6dataA).toOption.map Config.interval = some (-5) ∧
    ¬ (0 < (-5 : Int)) ∧
    (load_config c6dataB).toOption.map Config.interval = none :=
  ⟨rfl, by decide, rfl⟩

/-- C6 as amended: the interval returned by `load_config` is exactly the
Python `int` conversion of `cfg.get("interval_seconds") or 3600`; it equals
3600 whenever the field is missing or falsy, but it is not validated (it may
be zero or negative), and a truthy non-numeric field makes the loader fail
rather than default. -/
theorem claim_C6_amended (data : JSON) (fs : List (String × JSON)) (c : Config)
    (hf : configFields data = Except.ok fs) (h : load_config data = Except.ok c) :
    intervalOf fs = Except.ok c.interval ∧
    (jlookup fs "interval_seconds" = none → c.interval = 3600) ∧
    (∀ v, jlookup fs "interval_seconds" = some v → pyTruthy v = false → c.interval = 3600) := by
  obtain ⟨fs2, raw, i, hf2, _, hi, _, _, hceq⟩ := load_config_ok_inv h
  rw [hf] at hf2
  injection hf2 with hfs
  subst hfs
  have hci : c.interval = i := by rw [hceq]
  refine ⟨by rw [hci]; exact hi, fun hj => ?_, fun v hj hv => ?_⟩
  · have h36 : intervalOf fs = Except.ok 3600 := by
      simp [intervalOf, pyGetOr, hj, pyInt]
    rw [h36] at hi
    injection hi with hi36
    rw [hci, ← hi36]
  · have h36 : intervalOf fs = Except.ok 3600 := by
      simp [intervalOf, pyGetOr, hj, hv, pyInt]
    rw [h36] at hi
    injection hi with hi36
    rw [hci, ← hi36]

/-- The configuration `load_config` returns on `c6dataA`. -/
def c6cfgA : Config :=
  { channel_id := "1", token := "Bot x", messages := [JSON.str "Hello from VPS!"], interval := -5 }

/-- Witness for the amended C6 at a concrete config: the returned interval
is exactly what `int(cfg.get("interval_seconds") or 3600)` produces. -/
theorem claim_C6_witness :
    load_config c6dataA = Except.ok c6cfgA ∧
    intervalOf c6fieldsA = Except.ok c6cfgA.interval :=
  ⟨rfl, (claim_C6_amended c6dataA c6fieldsA c6cfgA rfl rfl).1⟩

/-- Projection of a JSON string value (used to state the C7 counterexample
without a decidable equality on `JSON`). -/
def jsonStr? : JSON → Option String
  | JSON.str s => some s
  | _ => none

/-- Concrete input refuting C7: a valid config whose `message` field is
present but equal to the empty string. -/
def c7fields : List (String × JSON) :=
  [("token", JSON.str "x"), ("channelid", JSON.str "1"), ("message", JSON.str "")]

/-- The config document wrapping `c7fields`. -/
def c7data : JSON := JSON.obj [("Config", JSON.arr [JSON.obj c7fields])]

/-- Counterexample to C7 as stated: with the scalar `message` field present
(but falsy, here `""`), the claim says templates should be the single-element
list holding that field, i.e. `[""]`; the code instead substitutes the
built-in fallback, so the sole template is `"Hello from VPS!" ≠ ""`. -/
theorem claim_C7_counterexample :
    jlookup c7fields "message" = some (JSON.str "") ∧
    (load_config c7data).toOption.map (fun cf => cf.messages.map jsonStr?) =
      some [some "Hello from VPS!"] ∧
    "Hello from VPS!" ≠ "" :=
  ⟨rfl, rfl, by decide⟩

/-- C7 as amended: the templates are the `messages` field verbatim when that
field is a non-empty list; otherwise the single-element list holding the
`message` field when that field is present and truthy, and the single-element
list `["Hello from VPS!"]` when `message` is missing or falsy. -/
theorem claim_C7_amended (data : JSON) (fs : List (String × JSON)) (c : Config)
    (hf : configFields data = Except.ok fs) (h : load_config data = Except.ok c) :
    (∀ l, msgsListField fs = some l → c.messages = l) ∧
    (msgsListField fs = none → c.messages = [pyGetOr fs "message" (JSON.str "Hello from VPS!")]) := by
  obtain ⟨fs2, raw, i, hf2, _, _, _, _, hceq⟩ := load_config_ok_inv h
  rw [hf] at hf2
  injection hf2 with hfs
  subst hfs
  have hm : c.messages = messagesOf fs := by rw [hceq]
  exact ⟨fun l hl => by rw [hm]; simp [messagesOf, hl],
         fun hn => by rw [hm]; simp [messagesOf, hn]⟩

/-- The configuration `load_config` returns on `c7data`. -/
def c7cfg : Config :=
  { channel_id := "1", token := "Bot x", messages := [JSON.str "Hello from VPS!"], interval := 3600 }

/-- Witness for the amended C7 at a concrete config (`message` present but
falsy): the fallback single-element list is returned. -/
theorem claim_C7_witness :
    msgsListField c7fields = none ∧
    load_config c7data = Except.ok c7cfg ∧
    c7cfg.messages = [pyGetOr c7fields "message" (JSON.str "Hello from VPS!")] :=
  ⟨rfl, rfl, (claim_C7_amended c7data c7fields c7cfg rfl rfl).2 rfl⟩

/-- A successful `messages`-list extraction is never the empty list. -/
theorem msgsListField_pos {fs : List (String × JSON)} {l : List JSON}
    (h : msgsListField fs = some l) : 0 < l.length := by
  unfold msgsListField at h
  split at h
  · injection h with h2
    subst h2
    simp
  · cases h

/-- C10: whenever `load_config` returns, the templates list is non-empty —
and whenever the `messages` field is absent, an empty list, or not a list at
all, the fallback has exactly one element — so template selection in the
loop always has a template to choose. -/
theorem claim_C10 (data : JSON) (fs : List (String × JSON)) (c : Config)
    (hf : configFields data = Except.ok fs) (h : load_config data = Except.ok c) :
    0 < c.messages.length ∧ (msgsListField fs = none → c.messages.length = 1) := by
  obtain ⟨fs2, raw, i, hf2, _, _, _, _, hceq⟩ := load_config_ok_inv h
  rw [hf] at hf2
  injection hf2 with hfs
  subst hfs
  have hm : c.messages = messagesOf fs := by rw [hceq]
  rcases hsel : msgsListField fs with _ | l
  · constructor
    · rw [hm]
      simp [messagesOf, hsel]
    · intro
      rw [hm]
      simp [messagesOf, hsel]
  · constructor
    · rw [hm]
      have : messagesOf fs = l := by simp [messagesOf, hsel]
      rw [this]
      exact msgsListField_pos hsel
    · intro hn
      cases hn

/-- Concrete input for the C10 witness: the `messages` field present but not
a list (a non-empty string), which the loader ignores. -/
def c10fields : List (String × JSON) :=
  [("token", JSON.str "x"), ("channelid", JSON.str "1"), ("messages", JSON.str "solo")]

/-- The config document wrapping `c10fields`. -/
def c10data : JSON := JSON.obj [("Config", JSON.arr [JSON.obj c10fields])]

/-- The configuration `load_config` returns on `c10data`. -/
def c10cfg : Config :=
  { channel_id := "1", token := "Bot x", messages := [JSON.str "Hello from VPS!"], interval := 3600 }

/-- Witness for C10 at a concrete config: the string-valued `messages` field
is ignored and the returned template list has exactly one element. -/
theorem claim_C10_witness :
    msgsListField c10fields = none ∧
    load_config c10data = Except.ok c10cfg ∧
    0 < c10cfg.messages.length ∧ c10cfg.messages.length = 1 := by
  have h := claim_C10 c10data c10fields c10cfg rfl rfl
  exact ⟨rfl, rfl, h.1, h.2 rfl⟩

/-! ### Helper lemmas about the sender and the loop -/

/-- `send_message` always writes exactly one log line, whatever the network
does. -/
theorem send_logs_length (ch tok content : String) (net : HttpResult) :
    ((send_message ch tok content net).2).length = 1 := by
  cases net with
  | exception e => rfl
  | response st r b =>
    simp only [send_message, send_body]
    split <;> rfl

/-- A successful tick body is the send log, hence exactly one line. -/
theorem tick_body_ok_length {cfg : Config} {env : TickEnv} {logs : List LogEntry}
    (h : tick_body cfg env = Except.ok logs) : logs.length = 1 := by
  unfold tick_body at h
  split at h
  · cases h
  · split at h <;> try cases h
    exact send_logs_length _ _ _ _

/-- Every loop tick produces exactly one log line, whether it succeeds or an
exception is caught. -/
theorem loop_tick_length (cfg : Config) (env : TickEnv) : (loop_tick cfg env).length = 1 := by
  unfold loop_tick
  rcases h : tick_body cfg env with e | logs
  · simp
  · simpa using tick_body_ok_length h

/-- Running `n` ticks produces exactly `n` log lines: no tick is skipped and
no tick aborts the loop. -/
theorem run_ticks_length (cfg : Config) (envs : List TickEnv) :
    (run_ticks cfg envs).length = envs.length := by
  induction envs with
  | nil => rfl
  | cons env rest ih =>
    simp [run_ticks, loop_tick_length, ih]
    omega

/-- C3: an exception escaping the try block of `send_message` is converted
into a single log line rather than propagated; an exception in a tick body
is likewise converted into a single loop-level log line; and the loop
processes every tick regardless — each tick contributes its logs and exactly
one outcome line is produced per tick, so the loop never terminates because
of a send failure. -/
theorem claim_C3 :
    (∀ (ch tok content : String) (net : HttpResult) (e : String),
      send_body net = Except.error e →
      (send_message ch tok content net).2 =
        [LogEntry.excLog ("Exception while sending message: " ++ e)]) ∧
    (∀ (cfg : Config) (env : TickEnv) (e : String),
      tick_body cfg env = Except.error e →
      loop_tick cfg env = [LogEntry.excLog ("Error in loop: " ++ e)]) ∧
    (∀ (cfg : Config) (env : TickEnv) (rest : List TickEnv),
      run_ticks cfg (env :: rest) = loop_tick cfg env ++ run_ticks cfg rest) ∧
    (∀ (cfg : Config) (envs : List TickEnv), (run_ticks cfg envs).length = envs.length) := by
  refine ⟨fun ch tok content net e h => ?_, fun cfg env e h => ?_,
    fun _ _ _ => rfl, run_ticks_length⟩
  · simp [send_message, h]
  · simp [loop_tick, h]

/-- Concrete network failure for the C3 witness. -/
def c3net : HttpResult := HttpResult.exception "Connection refused"

/-- Witness for C3: a connection failure during send is logged and
swallowed. -/
theorem claim_C3_witness :
    send_body c3net = Except.error "Connection refused" ∧
    (send_message "9" "Bot t" "hi" c3net).2 =
      [LogEntry.excLog ("Exception while sending message: " ++ "Connection refused")] :=
  ⟨rfl, claim_C3.1 "9" "Bot t" "hi" c3net "Connection refused" rfl⟩

/-- C4: a response with a 2xx status is logged as a success (a single info
line — in particular no error line), and any other status is logged as a
single error line carrying the status code, the reason phrase, and the
best-effort decoding of at most the first 300 bytes of the body. -/
theorem claim_C4 (ch tok content : String) (st : Nat) (reason : String) (body : List Nat) :
    (200 ≤ st ∧ st ≤ 299 →
      (send_message ch tok content (HttpResult.response st reason body)).2 =
        [LogEntry.info "Message sent successfully."]) ∧
    (st < 200 ∨ 300 ≤ st →
      (send_message ch tok content (HttpResult.response st reason body)).2 =
        [LogEntry.httpError st reason (String.mk (decodeIgnore (body.take 300)))]) := by
  constructor
  · intro hr
    have hc : 199 < st ∧ st < 300 := by omega
    simp [send_message, send_body, hc]
  · intro hr
    have hc : ¬(199 < st ∧ st < 300) := by omega
    simp [send_message, send_body, snippetOf, hc]

/-- Witness for C4, at a simulated 204 success and a simulated 404 failure
with body bytes `[72, 105]`. -/
theorem claim_C4_witness :
    ((200 ≤ 204 ∧ 204 ≤ 299) ∧
      (send_message "9" "t" "m" (HttpResult.response 204 "No Content" [])).2 =
        [LogEntry.info "Message sent successfully."]) ∧
    (((404 : Nat) < 200 ∨ 300 ≤ 404) ∧
      (send_message "9" "t" "m" (HttpResult.response 404 "Not Found" [72, 105])).2 =
        [LogEntry.httpError 404 "Not Found" (String.mk (decodeIgnore ([72, 105].take 300)))]) :=
  ⟨⟨by omega, (claim_C4 "9" "t" "m" 204 "No Content" []).1 (by omega)⟩,
   ⟨by omega, (claim_C4 "9" "t" "m" 404 "Not Found" [72, 105]).2 (by omega)⟩⟩

/-- C8: every call of `send_message` issues exactly one request, and that
request is a POST to `/api/v10/channels/<channel_id>/messages` on
`discord.com:443` over TLS with a 30-second timeout, the three fixed
headers (with the credential passed verbatim as `Authorization`), and the
JSON body `\x7b"content": content, "tts": false\x7d`. -/
theorem claim_C8 (ch tok content : String) (net : HttpResult) :
    (send_message ch tok content net).1 = build_request ch tok content ∧
    (build_request ch tok content).method = "POST" ∧
    (build_request ch tok content).host = "discord.com" ∧
    (build_request ch tok content).port = 443 ∧
    (build_request ch tok content).useTls = true ∧
    (build_request ch tok content).timeoutSeconds = 30 ∧
    (build_request ch tok content).path = "/api/v10/channels/" ++ ch ++ "/messages" ∧
    (build_request ch tok content).headers =
      [("Content-Type", "application/json"), ("User-Agent", "DiscordBot"), ("Authorization", tok)] ∧
    (build_request ch tok content).body =
      JSON.obj [("content", JSON.str content), ("tts", JSON.bool false)] :=
  ⟨rfl, rfl, rfl, rfl, rfl, rfl, rfl, rfl, rfl⟩

/-! ### Helper lemmas about the message renderer -/

/-- Unfolding `replaceAll` on the empty string. -/
theorem replaceAll_nil (pat rep : List Char) : replaceAll pat rep [] = [] := by
  rw [replaceAll]

/-- Unfolding `replaceAll` when the pattern matches at the head. -/
theorem replaceAll_cons_pos {pat : List Char} (rep : List Char) {c : Char} {cs : List Char}
    (h : pat ≠ []) (hp : pfxOf pat (c :: cs) = true) :
    replaceAll pat rep (c :: cs) = rep ++ replaceAll pat rep ((c :: cs).drop pat.length) := by
  rw [replaceAll, if_pos ⟨h, hp⟩]

/-- Unfolding `replaceAll` when the pattern does not match at the head. -/
theorem replaceAll_cons_neg {pat : List Char} (rep : List Char) {c : Char} {cs : List Char}
    (h : ¬(pat ≠ [] ∧ pfxOf pat (c :: cs) = true)) :
    replaceAll pat rep (c :: cs) = c :: replaceAll pat rep cs := by
  rw [replaceAll, if_neg h]

/-- A string containing no occurrence of the (non-empty) pattern is left
unchanged by replacement. -/
theorem replaceAll_of_not_contains {pat : List Char} (rep : List Char) :
    ∀ s : List Char, containsPat pat s = false → replaceAll pat rep s = s := by
  intro s
  induction s with
  | nil => intro _; exact replaceAll_nil pat rep
  | cons c cs ih =>
    intro h
    simp only [containsPat, Bool.or_eq_false_iff] at h
    rw [replaceAll_cons_neg rep (by simp [h.1]), ih h.2]

/-- Characters that cannot start the pattern are copied through verbatim. -/
theorem replaceAll_skip (p0 : Char) (pt : List Char) (rep : List Char) :
    ∀ (a s : List Char), p0 ∉ a →
      replaceAll (p0 :: pt) rep (a ++ s) = a ++ replaceAll (p0 :: pt) rep s := by
  intro a
  induction a with
  | nil => intro s _; rfl
  | cons x a2 ih =>
    intro s hx
    have hpx : (p0 == x) = false := by
      simp only [beq_eq_false_iff_ne, ne_eq]
      intro h0
      exact hx (h0 ▸ List.mem_cons_self x a2)
    have hno : pfxOf (p0 :: pt) (x :: (a2 ++ s)) = false := by
      simp [pfxOf, hpx]
    rw [List.cons_append, replaceAll_cons_neg rep (by simp [hno]),
      ih s (fun hm => hx (List.mem_cons_of_mem x hm))]
    rfl

/-- Occurrence search skips over characters that cannot start the pattern. -/
theorem containsPat_append {p0 : Char} {pt : List Char} :
    ∀ (a s : List Char), p0 ∉ a →
      containsPat (p0 :: pt) (a ++ s) = containsPat (p0 :: pt) s := by
  intro a
  induction a with
  | nil => intro s _; rfl
  | cons x a2 ih =>
    intro s hx
    have hpx : (p0 == x) = false := by
      simp only [beq_eq_false_iff_ne, ne_eq]
      intro h0
      exact hx (h0 ▸ List.mem_cons_self x a2)
    simp only [List.cons_append, containsPat, pfxOf, hpx, Bool.false_and, Bool.false_or]
    exact ih s (fun hm => hx (List.mem_cons_of_mem x hm))

/-- An initial segment of the replaced string built only from pattern
characters already was an initial segment of the string being scanned
(the replacement text contains no pattern character). -/
theorem pfx_pull {pat rep : List Char} (hrep : ∀ c ∈ rep, c ∉ pat) (hrne : rep ≠ []) :
    ∀ (s q : List Char), (∀ c ∈ q, c ∈ pat) → pfxOf q (replaceAll pat rep s) = true →
      pfxOf q s = true := by
  intro s
  induction s with
  | nil =>
    intro q hq hpfx
    rw [replaceAll_nil] at hpfx
    cases q with
    | nil => rfl
    | cons q0 qt => cases hpfx
  | cons c cs ih =>
    intro q hq hpfx
    by_cases hcond : pat ≠ [] ∧ pfxOf pat (c :: cs) = true
    · rw [replaceAll_cons_pos rep hcond.1 hcond.2] at hpfx
      cases q with
      | nil => rfl
      | cons q0 qt =>
        obtain ⟨r0, rt, hr⟩ := List.exists_cons_of_ne_nil hrne
        rw [hr, List.cons_append] at hpfx
        have hq0r0 : (q0 == r0) = false := by
          simp only [beq_eq_false_iff_ne, ne_eq]
          intro h0
          exact hrep r0 (hr ▸ List.mem_cons_self r0 rt) (h0 ▸ hq q0 (List.mem_cons_self q0 qt))
        rw [pfxOf, hq0r0, Bool.false_and] at hpfx
        cases hpfx
    · rw [replaceAll_cons_neg rep hcond] at hpfx
      cases q with
      | nil => rfl
      | cons q0 qt =>
        rw [pfxOf, Bool.and_eq_true] at hpfx
        rw [pfxOf, Bool.and_eq_true]
        exact ⟨hpfx.1, ih qt (fun x hx => hq x (List.mem_cons_of_mem q0 hx)) hpfx.2⟩

/-- After replacement with a non-empty replacement text sharing no character
with the (non-empty) pattern, the pattern does not occur in the result: every
occurrence was replaced and no new one can be formed. -/
theorem replaceAll_no_pat {p0 : Char} {pt rep : List Char}
    (hrep : ∀ c ∈ rep, c ∉ p0 :: pt) (hrne : rep ≠ []) :
    ∀ s : List Char, containsPat (p0 :: pt) (replaceAll (p0 :: pt) rep s) = false := by
  have hp0rep : p0 ∉ rep := fun hmem => hrep p0 hmem (List.mem_cons_self p0 pt)
  suffices H : ∀ (n : Nat) (s : List Char), s.length ≤ n →
      containsPat (p0 :: pt) (replaceAll (p0 :: pt) rep s) = false by
    exact fun s => H s.length s le_rfl
  intro n
  induction n with
  | zero =>
    intro s hs
    have h0 : s = [] := List.eq_nil_of_length_eq_zero (Nat.le_zero.mp hs)
    subst h0
    rw [replaceAll_nil]
    rfl
  | succ n ih =>
    intro s hs
    cases s with
    | nil =>
      rw [replaceAll_nil]
      rfl
    | cons c cs =>
      simp only [List.length_cons, Nat.succ_le_succ_iff] at hs
      by_cases hp : pfxOf (p0 :: pt) (c :: cs) = true
      · rw [replaceAll_cons_pos rep (List.cons_ne_nil p0 pt) hp]
        rw [containsPat_append rep _ hp0rep]
        apply ih
        simp only [List.length_drop, List.length_cons]
        omega
      · rw [replaceAll_cons_neg rep (by simp [hp])]
        simp only [containsPat]
        rw [ih cs hs, Bool.or_false]
        cases hq : pfxOf (p0 :: pt) (c :: replaceAll (p0 :: pt) rep cs) with
        | false => rfl
        | true =>
          exfalso
          rw [pfxOf, Bool.and_eq_true] at hq
          have hpull : pfxOf pt cs = true :=
            pfx_pull hrep hrne cs pt
              (fun x hx => List.mem_cons_of_mem p0 hx) hq.2
          have : pfxOf (p0 :: pt) (c :: cs) = true := by
            rw [pfxOf, Bool.and_eq_true]
            exact ⟨hq.1, hpull⟩
          exact hp this

/-- Every character produced by `decChar` has a code point below 60. -/
theorem decChar_lt (d : Nat) : (decChar d).toNat < 60 := by
  unfold decChar
  split <;> decide

/-- Every character of a decimal rendering has a code point below 60. -/
theorem natChars_lt : ∀ n : Nat, ∀ c ∈ natChars n, c.toNat < 60 := by
  intro n
  induction n using Nat.strong_induction_on with
  | _ n ih =>
    intro c hc
    rw [natChars] at hc
    split at hc
    · rw [List.mem_singleton] at hc
      rw [hc]
      exact decChar_lt n
    · rename_i hge
      rw [List.mem_append, List.mem_singleton] at hc
      rcases hc with hc | hc
      · exact ih (n / 10) (Nat.div_lt_self (by omega) (by norm_num)) c hc
      · rw [hc]
        exact decChar_lt (n % 10)

/-- Every character of a padded two-digit field has a code point below 60. -/
theorem pad2_lt (n : Nat) : ∀ c ∈ pad2 n, c.toNat < 60 := by
  intro c hc
  unfold pad2 at hc
  split at hc
  · rw [List.mem_cons] at hc
    rcases hc with hc | hc
    · rw [hc]; decide
    · exact natChars_lt n c hc
  · exact natChars_lt n c hc

/-- Every character of the padded year field has a code point below 60. -/
theorem pad4_lt (n : Nat) : ∀ c ∈ pad4 n, c.toNat < 60 := by
  intro c hc
  unfold pad4 at hc
  rw [List.mem_append] at hc
  rcases hc with hc | hc
  · rw [List.eq_of_mem_replicate hc]
    decide
  · exact natChars_lt n c hc

/-- Every character of the rendered timestamp has a code point below 60
(digits, dash, space, colon). -/
theorem nowChars_lt (t : DateTime) : ∀ c ∈ nowChars t, c.toNat < 60 := by
  intro c hc
  unfold nowChars at hc
  simp only [List.mem_append, List.mem_cons] at hc
  rcases hc with ((((hc | hc) | hc) | hc) | hc) | hc
  · exact pad4_lt t.year c hc
  · rcases hc with hc | hc
    · rw [hc]; decide
    · exact pad2_lt t.month c hc
  · rcases hc with hc | hc
    · rw [hc]; decide
    · exact pad2_lt t.day c hc
  · rcases hc with hc | hc
    · rw [hc]; decide
    · exact pad2_lt t.hour c hc
  · rcases hc with hc | hc
    · rw [hc]; decide
    · exact pad2_lt t.minute c hc
  · rcases hc with hc | hc
    · rw [hc]; decide
    · exact pad2_lt t.second c hc

/-- No timestamp character occurs in the placeholder pattern (all pattern
characters have code points above 100). -/
theorem nowChars_disjoint (t : DateTime) : ∀ c ∈ nowChars t, c ∉ nowPat := by
  intro c hc hmem
  have h60 := nowChars_lt t c hc
  have hpat : nowPat = ['{', 'n', 'o', 'w', '}'] := rfl
  rw [hpat] at hmem
  simp only [List.mem_cons, List.not_mem_nil, or_false] at hmem
  rcases hmem with h | h | h | h | h <;> (rw [h] at h60; revert h60; decide)

/-- The rendered timestamp is never the empty string. -/
theorem nowChars_ne_nil (t : DateTime) : nowChars t ≠ [] := by
  unfold nowChars
  simp

/-- The pattern is an initial segment of itself. -/
theorem pfx_self (p : List Char) : pfxOf p p = true := by
  have h := pfx_append_self p []
  rwa [List.append_nil] at h

/-- Replacing inside the pattern itself yields exactly the replacement. -/
theorem replaceAll_pat_self {p0 : Char} {pt : List Char} (rep : List Char) :
    replaceAll (p0 :: pt) rep (p0 :: pt) = rep := by
  rw [replaceAll_cons_pos rep (List.cons_ne_nil p0 pt) (pfx_self (p0 :: pt))]
  rw [List.drop_length, replaceAll_nil, List.append_nil]

/-- C5: `render_message` is a pure function of the template and the clock
reading; a template with no occurrence of the placeholder is returned
unchanged; every occurrence of the placeholder is replaced — the output
never contains it — and on `"Time: \x7bnow\x7d"` the output is exactly the
prefix followed by the `strftime`-formatted timestamp. -/
theorem claim_C5 (t : DateTime) (template : String) :
    (containsPat nowPat template.data = false → render_message t template = template) ∧
    containsPat nowPat (render_message t template).data = false ∧
    render_message t "Time: {now}" = String.mk ("Time: ".data ++ nowChars t) := by
  have hpat : nowPat = '{' :: ['n', 'o', 'w', '}'] := rfl
  refine ⟨fun hno => ?_, ?_, ?_⟩
  · unfold render_message
    rw [replaceAll_of_not_contains (nowChars t) template.data hno]
  · unfold render_message
    show containsPat nowPat (replaceAll nowPat (nowChars t) template.data) = false
    rw [hpat]
    exact replaceAll_no_pat (fun c hc => hpat ▸ nowChars_disjoint t c hc)
      (nowChars_ne_nil t) template.data
  · unfold render_message
    have hdata : "Time: {now}".data = "Time: ".data ++ nowPat := by decide
    rw [hdata, hpat]
    rw [replaceAll_skip '{' ['n', 'o', 'w', '}'] (nowChars t) "Time: ".data
      ['{', 'n', 'o', 'w', '}'] (by decide)]
    rw [replaceAll_pat_self (nowChars t)]

/-- Concrete clock reading for the C5 witness. -/
def c5clock : DateTime := ⟨2026, 10, 12, 0, 0, 0⟩

/-- Witness for C5: a template without the placeholder is returned
unchanged. -/
theorem claim_C5_witness :
    containsPat nowPat ("no placeholder".data) = false ∧
    render_message c5clock "no placeholder" = "no placeholder" :=
  ⟨by decide, (claim_C5 c5clock "no placeholder").1 (by decide)⟩

end DiscordBot
